import Mathlib

/-!
Shallow embedding of the ORGACO record manager.

Two source files are modelled:
* `streamlit_app.py` — the spreadsheet-backed variant: a pandas DataFrame is
  loaded from a Google Sheet, cleaned, kept in session state, and written back
  wholesale on every mutation.
* `app.py` — the relational variant: a Postgres table accessed through
  SQL statements (SELECT DISTINCT, INSERT, UPDATE).

The DataFrame is modelled column-wise (as pandas stores it): a list of named
columns, each a list of cells.  A cell is either missing (NaN/None), a string,
or an integer.  Backend I/O outcomes (connection errors, write failures) are
passed in as explicit `Except`/`Bool` parameters, since the Python code only
observes success or an exception.
-/

namespace Orgaco

/-- A single spreadsheet/DataFrame cell: missing (NaN), a string, or an
integer.  Floating point cells do not occur in any modelled code path. -/
inductive Cell where
  | na : Cell
  | str : String → Cell
  | int : Int → Cell
deriving DecidableEq, Repr

/-- The fixed column list of `streamlit_app.py` (`COLUMNS`, lines 16-20). -/
def COLUMNS : List String :=
  ["Group_Association", "President_Name", "President_Email", "President_Contact",
   "Secretary_Name", "Secretary_Email", "Secretary_Contact", "Treasurer_Name",
   "Treasurer_Email", "Treasurer_Contact", "Last_Fee_Paid_Year", "Web_Data_Updated"]

/-- A DataFrame, stored column-wise: an ordered association list from column
name to the column's cells. -/
structure Frame where
  cols : List (String × List Cell)
deriving DecidableEq, Repr

/-- The column names of a frame, in order. -/
def Frame.names (df : Frame) : List String := df.cols.map Prod.fst

/-- Column access, `df[c]`; `none` models a pandas `KeyError`. -/
def Frame.getCol (df : Frame) (c : String) : Option (List Cell) :=
  List.lookup c df.cols

/-- Membership test `c in df.columns`. -/
def Frame.hasCol (df : Frame) (c : String) : Bool := (df.getCol c).isSome

/-- Row count of a frame, read off the first column (pandas keeps all columns
the same length; `Frame.wf` states that invariant). -/
def Frame.nrows (df : Frame) : Nat :=
  match df.cols with
  | [] => 0
  | (_, l) :: _ => l.length

/-- Well-formedness of a frame: every column has the common row count.  Every
DataFrame produced by the pandas API satisfies this. -/
def Frame.wf (df : Frame) : Bool :=
  df.cols.all (fun p => p.2.length == df.nrows)

/-- Cell at column `c`, row `i`; missing column or out-of-range row reads as
missing. -/
def Frame.cell (df : Frame) (c : String) (i : Nat) : Cell :=
  (((df.getCol c).getD [])[i]?).getD .na

/-- Applies a fallible cell transformation to every cell of a column, stopping
at the first raised error — the semantics of `series.fillna(0).astype(int)`,
which raises on the first unconvertible value. -/
def mapCellsE (f : Cell → Except String Cell) : List Cell → Except String (List Cell)
  | [] => .ok []
  | x :: xs =>
    match f x with
    | .error e => .error e
    | .ok y =>
      match mapCellsE f xs with
      | .error e => .error e
      | .ok ys => .ok (y :: ys)

/-- Replaces the cells of column `c` with `l2`, keeping the column order. -/
def setColFrame (df : Frame) (c : String) (l2 : List Cell) : Frame :=
  ⟨df.cols.map (fun p => if p.1 == c then (c, l2) else p)⟩

/-- Models `df[c] = f(df[c])` for a column transformation `f` that may raise:
a missing column raises `KeyError`, and any cell-level error propagates. -/
def Frame.mapColE (df : Frame) (c : String) (f : Cell → Except String Cell) :
    Except String Frame :=
  match df.getCol c with
  | none => .error "KeyError"
  | some l =>
    match mapCellsE f l with
    | .error e => .error e
    | .ok l2 => .ok (setColFrame df c l2)

/-- Models the loop `for col in COLUMNS: if col not in df.columns: df[col] = ''`
(lines 45-47): each absent column is appended, filled with empty strings. -/
def fillMissingCols (df : Frame) : List String → Frame
  | [] => df
  | c :: cs =>
    if df.hasCol c then fillMissingCols df cs
    else fillMissingCols ⟨df.cols ++ [(c, List.replicate df.nrows (.str ""))]⟩ cs

/-- Models `df[cs]`: reorder/select columns by name. -/
def Frame.select (df : Frame) (cs : List String) : Frame :=
  ⟨cs.map (fun c => (c, (df.getCol c).getD []))⟩

/-- Decimal digit-string parser: `some` of the value when every character is
a digit (and the string is non-empty), `none` otherwise. -/
def parseNatDigits (l : List Char) : Option Nat :=
  if l.isEmpty then none
  else if l.all Char.isDigit then
    some (l.foldl (fun n ch => n * 10 + (ch.toNat - 48)) 0)
  else none

/-- Models Python `int(s)` on a decimal literal: an optional leading minus
sign followed by digits; anything else is a `ValueError`. -/
def pyInt? (s : String) : Option Int :=
  match s.data with
  | '-' :: rest => (parseNatDigits rest).map (fun n => -(n : Int))
  | l => (parseNatDigits l).map (fun n => (n : Int))

/-- Models `fillna(0).astype(int)` on one cell (line 40): a missing value
becomes `0`, an integer stays, a numeric string is parsed, and any other
string raises (pandas `astype(int)` raises `ValueError` on it). -/
def fillnaAstypeInt : Cell → Except String Cell
  | .na => .ok (.int 0)
  | .int n => .ok (.int n)
  | .str s =>
    match pyInt? s with
    | some n => .ok (.int n)
    | none => .error "ValueError"

/-- True when `s` has the shape `YYYY-MM-DD` with plausible month and day. -/
def isIsoDate (s : String) : Bool :=
  match s.data with
  | [y1, y2, y3, y4, h1, m1, m2, h2, d1, d2] =>
    y1.isDigit && y2.isDigit && y3.isDigit && y4.isDigit &&
    h1 == '-' && h2 == '-' &&
    m1.isDigit && m2.isDigit && d1.isDigit && d2.isDigit &&
    (let mv := (m1.toNat - 48) * 10 + (m2.toNat - 48)
     let dv := (d1.toNat - 48) * 10 + (d2.toNat - 48)
     decide (1 ≤ mv ∧ mv ≤ 12 ∧ 1 ≤ dv ∧ dv ≤ 31))
  | _ => false

/-- Models `pd.to_datetime(x, errors='coerce').dt.strftime('%Y-%m-%d')` on one
cell (line 42): a parseable date becomes its ISO string, everything else
becomes missing (`NaT`).  Parsing is modelled for ISO-formatted string input,
the format this sheet stores; it never raises (`errors='coerce'`). -/
def toDatetimeStrftime : Cell → Cell
  | .str s => if isIsoDate s then .str s else .na
  | _ => .na

/-- The cleaning pipeline of `load_data` (lines 40-49): coerce the year
column, coerce the date column, fill absent expected columns with empty
strings, and return the columns in the declared order.  An error anywhere is
the raised exception that line 51 catches. -/
def cleanFrame (df : Frame) : Except String Frame :=
  match df.mapColE "Last_Fee_Paid_Year" fillnaAstypeInt with
  | .error e => .error e
  | .ok df1 =>
    match df1.mapColE "Web_Data_Updated" (fun x => .ok (toDatetimeStrftime x)) with
    | .error e => .error e
    | .ok df2 => .ok ((fillMissingCols df2 COLUMNS).select COLUMNS)

/-- The empty, correctly shaped frame, `pd.DataFrame(columns=COLUMNS)`
(line 55). -/
def emptyFrame : Frame := ⟨COLUMNS.map (fun c => (c, []))⟩

/-- Result of `load_data`: the returned frame, plus whether the handler
reported an error to the caller (`st.error`/`st.exception`, lines 52-53). -/
structure LoadResult where
  frame : Frame
  errorReported : Bool
deriving DecidableEq, Repr

/-- Models `load_data` (lines 25-55).  The argument is the outcome of the
backend read `conn.read(...)`: `.error` when the connection cannot be
established or the read raises, `.ok raw` with the raw sheet contents
otherwise.  Any exception — from the read or from cleaning — is caught and
turned into a reported error with the empty, correctly shaped frame. -/
def load_data (readResult : Except String Frame) : LoadResult :=
  match readResult with
  | .error _ => ⟨emptyFrame, true⟩
  | .ok raw =>
    match cleanFrame raw with
    | .ok cleaned => ⟨cleaned, false⟩
    | .error _ => ⟨emptyFrame, true⟩

/-!
The session dataset and the two tab handlers of `streamlit_app.py`.

After `load_data` the session DataFrame has exactly the twelve `COLUMNS`
(proved below as the shape theorem), so the tab handlers — which read and
write those twelve fields — are modelled over a typed record list.
-/

/-- One row of the session dataset, with the twelve fields of `COLUMNS`
in declared order. -/
structure Record where
  groupAssociation : String
  presidentName : String
  presidentEmail : String
  presidentContact : String
  secretaryName : String
  secretaryEmail : String
  secretaryContact : String
  treasurerName : String
  treasurerEmail : String
  treasurerContact : String
  lastFeePaidYear : Int
  webDataUpdated : String
deriving DecidableEq, Repr

/-- Boolean lexicographic string comparison used by the sort models. -/
def strLe (a b : String) : Bool := decide (a ≤ b)

/-- Ascending sort followed by duplicate removal — the value computed both by
pandas `sort_values().unique()` and by SQL `SELECT DISTINCT ... ORDER BY`. -/
def sortDedup (l : List String) : List String := (l.mergeSort strLe).dedup

/-- Models `df['Group_Association'].sort_values().unique().tolist()`
(`streamlit_app.py` line 100): the dropdown options, computed purely from the
in-memory session dataset. -/
def group_options (df : List Record) : List String :=
  sortDedup (df.map Record.groupAssociation)

/-- Models the `selected_row` filter (line 111) followed by taking the row the
editor shows and the save handler targets (`index[0]`, line 143): the first
record whose `Group_Association` equals the requested name. -/
def findByGroupName (df : List Record) (name : String) : Option Record :=
  (df.filter (fun r => r.groupAssociation == name)).head?

/-- The fields of the `new_group_form` in tab 2 (lines 179-216). -/
structure NewGroupForm where
  newGroupName : String
  pName : String
  pEmail : String
  pContact : String
  sName : String
  sEmail : String
  sContact : String
  tName : String
  tEmail : String
  tContact : String
  feeYear : Int
deriving DecidableEq, Repr

/-- The `new_data` dictionary built by the tab 2 handler (lines 227-240):
the submitted fields plus `Web_Data_Updated` stamped with today's date. -/
def NewGroupForm.toRecord (f : NewGroupForm) (today : String) : Record :=
  ⟨f.newGroupName, f.pName, f.pEmail, f.pContact, f.sName, f.sEmail, f.sContact,
   f.tName, f.tEmail, f.tContact, f.feeYear, today⟩

/-- Outcome of the tab 2 insert handler. -/
inductive InsertOutcome where
  | errRequired : InsertOutcome
  | errDuplicate : InsertOutcome
  | writeFailed : InsertOutcome
  | success : InsertOutcome
deriving DecidableEq, Repr

/-- Models the tab 2 insert handler (lines 220-253).  `df` is the session
dataset, `today` the stamped date, and `writeOk` whether `conn.write` inside
`write_data` succeeds (`write_data` returns `False` and reports an error when
it raises, lines 62-71).  The handler first rejects an empty name, then a name
already in `df['Group_Association'].tolist()`; otherwise it appends the new
row to the session dataset (line 244) and calls `write_data`.  On write
failure nothing further happens: the appended row stays in session state. -/
def insertTab2 (df : List Record) (f : NewGroupForm) (today : String)
    (writeOk : Bool) : List Record × InsertOutcome :=
  if f.newGroupName = "" then (df, .errRequired)
  else if (df.map Record.groupAssociation).contains f.newGroupName then
    (df, .errDuplicate)
  else
    let df2 := df ++ [f.toRecord today]
    (df2, if writeOk then .success else .writeFailed)

/-- The editable row shown by `st.data_editor` in tab 1 (line 118): every
column except the dropped `Group_Association` and `Web_Data_Updated`. -/
structure EditedRow where
  presidentName : String
  presidentEmail : String
  presidentContact : String
  secretaryName : String
  secretaryEmail : String
  secretaryContact : String
  treasurerName : String
  treasurerEmail : String
  treasurerContact : String
  lastFeePaidYear : Int
deriving DecidableEq, Repr

/-- The save handler's column loop (lines 149-153): write every edited column
into the targeted row, then stamp `Web_Data_Updated` with today's date.  The
group name is not among the edited columns and is left as it was. -/
def applyEdits (r : Record) (e : EditedRow) (today : String) : Record :=
  { groupAssociation := r.groupAssociation
    presidentName := e.presidentName
    presidentEmail := e.presidentEmail
    presidentContact := e.presidentContact
    secretaryName := e.secretaryName
    secretaryEmail := e.secretaryEmail
    secretaryContact := e.secretaryContact
    treasurerName := e.treasurerName
    treasurerEmail := e.treasurerEmail
    treasurerContact := e.treasurerContact
    lastFeePaidYear := e.lastFeePaidYear
    webDataUpdated := today }

/-- Outcome of the tab 1 update flow. -/
inductive UpdateOutcome where
  | validationFailed : UpdateOutcome
  | notFound : UpdateOutcome
  | writeFailed : UpdateOutcome
  | success : UpdateOutcome
deriving DecidableEq, Repr

/-- Models the Save Changes handler (lines 140-165): locate the first index
whose `Group_Association` equals the selected name (`index[0]`, line 143),
overwrite that row's editable columns and its timestamp, and call
`write_data` on the whole dataset.  When no row matches, `index[0]` raises
and the surrounding `except` reports an error with the dataset untouched.
When the write fails, the mutated dataset stays in session state and no
success message is shown. -/
def saveChanges (df : List Record) (selectedName : String) (e : EditedRow)
    (today : String) (writeOk : Bool) : List Record × UpdateOutcome :=
  match df.findIdx? (fun r => r.groupAssociation == selectedName) with
  | none => (df, .notFound)
  | some i =>
    match df[i]? with
    | none => (df, .notFound)
    | some r =>
      (df.set i (applyEdits r e today), if writeOk then .success else .writeFailed)

/-- The `st.data_editor` bound on `Last_Fee_Paid_Year` (lines 126-133):
`NumberColumn(min_value=1900, max_value=date.today().year + 1)`. -/
def feeYearWidgetOk (currentYear : Int) (y : Int) : Bool :=
  decide (1900 ≤ y ∧ y ≤ currentYear + 1)

/-- The complete tab 1 update flow: the editor's `NumberColumn` configuration
rejects a `Last_Fee_Paid_Year` outside `[1900, currentYear + 1]`, so the save
handler never runs with such a value and the dataset is untouched; otherwise
`saveChanges` runs. -/
def updateRecord (currentYear : Int) (df : List Record) (selectedName : String)
    (e : EditedRow) (today : String) (writeOk : Bool) :
    List Record × UpdateOutcome :=
  if feeYearWidgetOk currentYear e.lastFeePaidYear then
    saveChanges df selectedName e today writeOk
  else (df, .validationFailed)

/-!
The relational variant, `app.py`.

Only the `Group_Association` column participates in the modelled behavior:
`add_new_group` inserts a row filling only that column (the rest are nullable
defaults, line 65's comment), and `fetch_group_associations` reads only that
column.  The table is therefore modelled as its `Group_Association` column in
insertion order.
-/

/-- The relational table, as its `Group_Association` column in insertion
order. -/
structure Db where
  rows : List String
deriving DecidableEq, Repr

/-- A backend round trip issued by the relational helpers. -/
inductive DbCall where
  | selectDistinctGroups : DbCall
  | insertGroup (name : String) : DbCall
deriving DecidableEq, Repr

/-- Models `fetch_group_associations` (`app.py` lines 29-34): it runs
`SELECT DISTINCT "Group_Association" ... ORDER BY "Group_Association"` against
the backend — the second component records the backend call it issues — and
returns the sorted distinct names. -/
def fetch_group_associations (db : Db) : List String × List DbCall :=
  (sortDedup db.rows, [.selectDistinctGroups])

/-- Result of `add_new_group`: the table afterwards and whether the handler
reported an error. -/
structure AddResult where
  db : Db
  errorReported : Bool
deriving DecidableEq, Repr

/-- Models `add_new_group` (`app.py` lines 62-74): an unconditional
`INSERT INTO ... ("Group_Association") VALUES (:new_group)` — no duplicate
check of any kind — committed when the backend is reachable (`dbOk`); an
exception is caught and reported with the table unchanged. -/
def add_new_group (db : Db) (name : String) (dbOk : Bool) : AddResult :=
  if dbOk then ⟨⟨db.rows ++ [name]⟩, false⟩ else ⟨db, true⟩

/-- Outcome of the relational new-group form handler. -/
inductive FormOutcome where
  | noSubmit : FormOutcome
  | warnedEmpty : FormOutcome
  | inserted : FormOutcome
deriving DecidableEq, Repr

/-- Models Python `str.strip()`: remove leading and trailing whitespace. -/
def pyStrip (s : String) : String :=
  ⟨((s.data.dropWhile Char.isWhitespace).reverse.dropWhile Char.isWhitespace).reverse⟩

/-- Models the `new_group_form` handler (`app.py` lines 142-149): on submit
with a non-empty input it calls `add_new_group(new_group_input.strip())`,
i.e. the stored name is the whitespace-trimmed input; an empty input only
warns. -/
def new_group_form (submitted : Bool) (input : String) (db : Db) (dbOk : Bool) :
    Db × FormOutcome :=
  if submitted && input != "" then
    ((add_new_group db (pyStrip input) dbOk).db, .inserted)
  else if submitted then (db, .warnedEmpty)
  else (db, .noSubmit)

/-!
Concrete fixtures used by counterexamples and witnesses.
-/

/-- A dataset row for the examples: the "Lions Club" record. -/
def lionsRecord : Record :=
  ⟨"Lions Club", "Pat", "pat@lions.org", "071", "Sam", "sam@lions.org", "072",
   "Kim", "kim@lions.org", "073", 2023, "2024-01-01"⟩

/-- A second dataset row for the examples: the "Park Society" record. -/
def parkRecord : Record :=
  ⟨"Park Society", "Ana", "ana@park.org", "074", "Ben", "ben@park.org", "075",
   "Cal", "cal@park.org", "076", 2022, "2023-05-05"⟩

/-- A submitted tab 2 form for a new "Rotary" group. -/
def rotaryForm : NewGroupForm :=
  ⟨"Rotary", "Rae", "rae@rotary.org", "077", "Sol", "sol@rotary.org", "078",
   "Tia", "tia@rotary.org", "079", 2024⟩

/-- A second submitted tab 2 form, for the amended-claim witnesses. -/
def rotaryFormB : NewGroupForm :=
  ⟨"Rotary East", "Rex", "rex@rotary.org", "080", "Sue", "sue@rotary.org", "081",
   "Tom", "tom@rotary.org", "082", 2025⟩

/-- A submitted tab 2 form that clashes with the existing "Lions Club" row. -/
def lionsForm : NewGroupForm :=
  ⟨"Lions Club", "Pia", "pia@lions.org", "083", "Stu", "stu@lions.org", "084",
   "Ted", "ted@lions.org", "085", 2025⟩

/-- An edited row for the update examples. -/
def editLions : EditedRow :=
  ⟨"Pat", "pat@lions.org", "071", "Sam", "sam@lions.org", "072",
   "Kim", "kim@lions.org", "073", 2024⟩

/-- A one-row relational table holding only "Lions Club". -/
def dbLions : Db := ⟨["Lions Club"]⟩

/-- The value a year cell becomes when its coercion succeeds (`0` when blank,
the integer value otherwise); the `.na` fallback is never reached on the
success path. -/
def yearFix (x : Cell) : Cell :=
  match fillnaAstypeInt x with
  | .ok v => v
  | .error _ => .na

/-- Whether `fillna(0).astype(int)` succeeds on this cell. -/
def yearCellOk (x : Cell) : Bool :=
  match fillnaAstypeInt x with
  | .ok _ => true
  | .error _ => false

/-- Spec-side description of one normalized cell, stating the amended C4: a
missing expected field reads as the empty string, the year field is the
integer coercion of the loaded cell (0 when blank), the date field is the ISO
string or blank when unparseable, and every other field is returned as
loaded. -/
def expectedCleanCell (df : Frame) (c : String) (i : Nat) : Cell :=
  if df.hasCol c = false then .str ""
  else if c = "Last_Fee_Paid_Year" then yearFix (df.cell c i)
  else if c = "Web_Data_Updated" then toDatetimeStrftime (df.cell c i)
  else df.cell c i

/-- Raw sheet contents whose year column is missing entirely. -/
def rawNoYear : Frame :=
  ⟨[("Group_Association", [Cell.str "Lions Club"])]⟩

/-- Raw sheet contents holding a non-numeric year value. -/
def rawBadYear : Frame :=
  ⟨[("Group_Association", [Cell.str "Lions Club"]),
    ("Last_Fee_Paid_Year", [Cell.str "unknown"]),
    ("Web_Data_Updated", [Cell.str "2024-01-01"])]⟩

/-- Raw sheet contents on which the cleaning pipeline succeeds: the year cell
is blank, the date cell unparseable, and most expected columns missing. -/
def rawGood : Frame :=
  ⟨[("Group_Association", [Cell.str "Lions Club"]),
    ("Last_Fee_Paid_Year", [Cell.na]),
    ("Web_Data_Updated", [Cell.str "soon"])]⟩

/-!
Helper lemmas shared by the verification theorems.
-/

/-- The boolean string order is transitive. -/
theorem strLe_trans (a b c : String) (h1 : strLe a b = true) (h2 : strLe b c = true) :
    strLe a c = true := by
  simp only [strLe, decide_eq_true_eq] at h1 h2 ⊢
  exact le_trans h1 h2

/-- The boolean string order is total. -/
theorem strLe_total (a b : String) : (strLe a b || strLe b a) = true := by
  simp only [strLe, Bool.or_eq_true, decide_eq_true_eq]
  exact le_total a b

/-- Sorting then removing duplicates yields an ascending list. -/
theorem sortDedup_sorted (l : List String) : List.Sorted (· ≤ ·) (sortDedup l) := by
  have h := @List.sorted_mergeSort String strLe strLe_trans strLe_total l
  have h2 : List.Pairwise (· ≤ ·) (l.mergeSort strLe) :=
    h.imp (fun hab => by simpa [strLe] using hab)
  exact h2.sublist (List.dedup_sublist _)

/-- Sorting then removing duplicates yields a duplicate-free list. -/
theorem sortDedup_nodup (l : List String) : (sortDedup l).Nodup :=
  List.nodup_dedup _

/-- Sorting then removing duplicates preserves membership. -/
theorem mem_sortDedup (l : List String) (s : String) : s ∈ sortDedup l ↔ s ∈ l := by
  unfold sortDedup
  rw [List.mem_dedup, List.mem_mergeSort]

/-- A successful index lookup by `findIdx?` is in range. -/
theorem findIdx?_lt_length {p : Record → Bool} {l : List Record} {i : Nat}
    (h : l.findIdx? p = some i) : i < l.length :=
  (List.findIdx?_eq_some_iff_findIdx_eq.mp h).1

/-- Shape of the save handler on the success path: when a row matches and the
backend write succeeds, the result is the dataset with the matched row
rewritten, and the handler reports success. -/
theorem saveChanges_found (df : List Record) (name : String) (e : EditedRow)
    (today : String) (writeOk : Bool) (i : Nat)
    (hfind : df.findIdx? (fun r => r.groupAssociation == name) = some i) :
    ∃ r, df[i]? = some r ∧
      saveChanges df name e today writeOk
        = (df.set i (applyEdits r e today), if writeOk then .success else .writeFailed) := by
  have hlt : i < df.length := findIdx?_lt_length hfind
  refine ⟨df[i], by simp [List.getElem?_eq_getElem hlt], ?_⟩
  unfold saveChanges
  rw [hfind]
  simp [List.getElem?_eq_getElem hlt]

/-!
Verification of the claims.
-/

/-- C5: when the backend connection cannot be established or the read call
errors, `load_data` does not propagate the fault: it reports the failure and
returns the empty dataset carrying the full declared column set. -/
theorem load_backend_error_empty_shape (e : String) :
    load_data (.error e) = ⟨emptyFrame, true⟩ ∧
    emptyFrame.names = COLUMNS ∧ emptyFrame.nrows = 0 := by
  exact ⟨rfl, rfl, rfl⟩

/-- C1 counterexample: with one record loaded and a backend write that fails,
the tab 2 insert handler reports the write failure but the in-memory dataset
still contains the appended, unpersisted row — it is not restored to its
pre-insert contents. -/
theorem insert_writeFailure_no_rollback_cex :
    (insertTab2 [lionsRecord] rotaryForm "2025-01-01" false).2 = .writeFailed ∧
    (insertTab2 [lionsRecord] rotaryForm "2025-01-01" false).1 ≠ [lionsRecord] ∧
    (insertTab2 [lionsRecord] rotaryForm "2025-01-01" false).1
      = [lionsRecord, rotaryForm.toRecord "2025-01-01"] := by
  refine ⟨rfl, by decide, rfl⟩

/-- C1 amended: for every insert whose backend write fails, the handler
reports the failure, but the in-memory dataset keeps the appended row — the
dataset is not restored, so a caller can observe a record that was never
persisted. -/
theorem insert_writeFailure_keeps_unpersisted_row (df : List Record)
    (f : NewGroupForm) (today : String)
    (hne : f.newGroupName ≠ "")
    (hnew : (df.map Record.groupAssociation).contains f.newGroupName = false) :
    insertTab2 df f today false = (df ++ [f.toRecord today], .writeFailed) ∧
    df ++ [f.toRecord today] ≠ df := by
  have hnm := hnew
  simp at hnm
  refine ⟨by simp [insertTab2, hne]; exact hnm, ?_⟩
  intro h
  have hlen := congrArg List.length h
  simp at hlen

/-- Witness for the amended C1 at a concrete dataset and form. -/
theorem insert_writeFailure_keeps_unpersisted_row_witness :
    (rotaryFormB.newGroupName ≠ "") ∧
    (([lionsRecord].map Record.groupAssociation).contains rotaryFormB.newGroupName
      = false) ∧
    (insertTab2 [lionsRecord] rotaryFormB "2025-06-30" false
        = ([lionsRecord] ++ [rotaryFormB.toRecord "2025-06-30"], .writeFailed) ∧
      [lionsRecord] ++ [rotaryFormB.toRecord "2025-06-30"] ≠ [lionsRecord]) :=
  ⟨by decide, by decide,
    insert_writeFailure_keeps_unpersisted_row [lionsRecord] rotaryFormB "2025-06-30"
      (by decide) (by decide)⟩

/-- C2 counterexample: in the relational variant, inserting a group name that
is already present does not fail with a duplicate error — the row is inserted
and the table changes, now holding the name twice. -/
theorem relational_insert_duplicate_cex :
    (add_new_group dbLions "Lions Club" true).db ≠ dbLions ∧
    (add_new_group dbLions "Lions Club" true).db.rows
      = ["Lions Club", "Lions Club"] ∧
    (add_new_group dbLions "Lions Club" true).errorReported = false := by
  refine ⟨by decide, rfl, rfl⟩

/-- C2 amended: in the spreadsheet variant an insert whose group name is
already present always fails with the duplicate error and leaves the dataset
unchanged; the relational variant performs no duplicate check — its insert
appends the name even when it is already in the table. -/
theorem insert_duplicate_behavior (df : List Record) (f : NewGroupForm)
    (today : String) (writeOk : Bool) (db : Db) (name : String)
    (hne : f.newGroupName ≠ "")
    (hdup : (df.map Record.groupAssociation).contains f.newGroupName = true)
    (hmem : name ∈ db.rows) :
    insertTab2 df f today writeOk = (df, .errDuplicate) ∧
    (add_new_group db name true).db.rows = db.rows ++ [name] ∧
    (add_new_group db name true).errorReported = false ∧
    2 ≤ (add_new_group db name true).db.rows.count name := by
  refine ⟨?_, rfl, rfl, ?_⟩
  · have hd := hdup
    simp at hd
    simp [insertTab2, hne]
    exact hd
  · have hc : 0 < db.rows.count name := List.count_pos_iff.mpr hmem
    have hstep : (add_new_group db name true).db.rows.count name
        = db.rows.count name + 1 := by
      simp [add_new_group, List.count_append]
    omega

/-- Witness for the amended C2 at a concrete dataset, form and table. -/
theorem insert_duplicate_behavior_witness :
    (lionsForm.newGroupName ≠ "") ∧
    (([lionsRecord, parkRecord].map Record.groupAssociation).contains
        lionsForm.newGroupName = true) ∧
    ("Lions Club" ∈ dbLions.rows) ∧
    (insertTab2 [lionsRecord, parkRecord] lionsForm "2025-06-30" true
        = ([lionsRecord, parkRecord], .errDuplicate) ∧
      (add_new_group dbLions "Lions Club" true).db.rows
        = dbLions.rows ++ ["Lions Club"] ∧
      (add_new_group dbLions "Lions Club" true).errorReported = false ∧
      2 ≤ (add_new_group dbLions "Lions Club" true).db.rows.count "Lions Club") :=
  ⟨by decide, by decide, by decide,
    insert_duplicate_behavior [lionsRecord, parkRecord] lionsForm "2025-06-30"
      true dbLions "Lions Club" (by decide) (by decide) (by decide)⟩

/-- C6 counterexample: in the relational variant, computing the group-name
list does issue a backend call — `fetch_group_associations` runs a
`SELECT DISTINCT` query each time it is evaluated, so the claim's
"never issues a backend call ... in both backend variants" fails. -/
theorem relational_listGroupNames_backend_call_cex :
    (fetch_group_associations dbLions).2 ≠ [] ∧
    (fetch_group_associations dbLions).2 = [DbCall.selectDistinctGroups] := by
  refine ⟨by decide, rfl⟩

/-- C6 amended: both variants return exactly the distinct group names in
ascending lexicographic order — the spreadsheet variant computes them purely
from the cached in-memory dataset, while the relational variant issues one
`SELECT DISTINCT` backend query per evaluation. -/
theorem listGroupNames_sorted_distinct (df : List Record) (db : Db) (s : String) :
    List.Sorted (· ≤ ·) (group_options df) ∧
    (group_options df).Nodup ∧
    (s ∈ group_options df ↔ s ∈ df.map Record.groupAssociation) ∧
    List.Sorted (· ≤ ·) (fetch_group_associations db).1 ∧
    ((fetch_group_associations db).1).Nodup ∧
    (s ∈ (fetch_group_associations db).1 ↔ s ∈ db.rows) ∧
    (fetch_group_associations db).2 = [DbCall.selectDistinctGroups] :=
  ⟨sortDedup_sorted _, sortDedup_nodup _, mem_sortDedup _ s,
   sortDedup_sorted _, sortDedup_nodup _, mem_sortDedup _ s, rfl⟩

/-- C7: a successful insert followed by a lookup of the inserted group name
returns a record equal to the submitted one in every field, except that
`Web_Data_Updated` carries the date stamped at insert time. -/
theorem insert_findByGroupName_roundtrip (df : List Record) (f : NewGroupForm)
    (today : String)
    (hne : f.newGroupName ≠ "")
    (hnew : (df.map Record.groupAssociation).contains f.newGroupName = false) :
    (insertTab2 df f today true).2 = .success ∧
    findByGroupName (insertTab2 df f today true).1 f.newGroupName
      = some { groupAssociation := f.newGroupName
               presidentName := f.pName
               presidentEmail := f.pEmail
               presidentContact := f.pContact
               secretaryName := f.sName
               secretaryEmail := f.sEmail
               secretaryContact := f.sContact
               treasurerName := f.tName
               treasurerEmail := f.tEmail
               treasurerContact := f.tContact
               lastFeePaidYear := f.feeYear
               webDataUpdated := today } := by
  have hnm := hnew
  simp at hnm
  have hins : insertTab2 df f today true = (df ++ [f.toRecord today], .success) := by
    simp [insertTab2, hne]
    exact hnm
  refine ⟨by rw [hins], ?_⟩
  rw [hins]
  have hfilter : df.filter (fun r => r.groupAssociation == f.newGroupName) = [] := by
    rw [List.filter_eq_nil_iff]
    intro r hr
    simpa using hnm r hr
  simp [findByGroupName, List.filter_append, hfilter, NewGroupForm.toRecord]

/-- Witness for C7 at a concrete dataset and form. -/
theorem insert_findByGroupName_roundtrip_witness :
    (rotaryForm.newGroupName ≠ "") ∧
    (([lionsRecord].map Record.groupAssociation).contains rotaryForm.newGroupName
      = false) ∧
    ((insertTab2 [lionsRecord] rotaryForm "2025-06-30" true).2 = .success ∧
      findByGroupName (insertTab2 [lionsRecord] rotaryForm "2025-06-30" true).1
          rotaryForm.newGroupName
        = some { groupAssociation := rotaryForm.newGroupName
                 presidentName := rotaryForm.pName
                 presidentEmail := rotaryForm.pEmail
                 presidentContact := rotaryForm.pContact
                 secretaryName := rotaryForm.sName
                 secretaryEmail := rotaryForm.sEmail
                 secretaryContact := rotaryForm.sContact
                 treasurerName := rotaryForm.tName
                 treasurerEmail := rotaryForm.tEmail
                 treasurerContact := rotaryForm.tContact
                 lastFeePaidYear := rotaryForm.feeYear
                 webDataUpdated := "2025-06-30" }) :=
  ⟨by decide, by decide,
    insert_findByGroupName_roundtrip [lionsRecord] rotaryForm "2025-06-30"
      (by decide) (by decide)⟩

/-- C9: a successful save mutates only the first row whose group name equals
the selected name — every other row is returned unchanged, and the mutated
row keeps its group name. -/
theorem saveChanges_frame_property (df : List Record) (name : String)
    (e : EditedRow) (today : String) (i j : Nat)
    (hfind : df.findIdx? (fun r => r.groupAssociation == name) = some i)
    (hne : j ≠ i) :
    (saveChanges df name e today true).2 = .success ∧
    (saveChanges df name e today true).1.length = df.length ∧
    (saveChanges df name e today true).1[j]? = df[j]? ∧
    ((saveChanges df name e today true).1[i]?).map Record.groupAssociation
      = (df[i]?).map Record.groupAssociation := by
  obtain ⟨r, hget, heq⟩ := saveChanges_found df name e today true i hfind
  have hlt : i < df.length := findIdx?_lt_length hfind
  rw [heq]
  refine ⟨rfl, by simp, ?_, ?_⟩
  · exact List.getElem?_set_ne (fun h => hne h.symm)
  · rw [List.getElem?_set_self (by simpa using hlt), hget]
    simp [applyEdits]

/-- Witness for C9 at a concrete two-row dataset: editing "Park Society"
leaves the "Lions Club" row untouched and keeps the edited row's name. -/
theorem saveChanges_frame_property_witness :
    ([lionsRecord, parkRecord].findIdx?
        (fun r => r.groupAssociation == "Park Society") = some 1) ∧
    ((0 : Nat) ≠ 1) ∧
    ((saveChanges [lionsRecord, parkRecord] "Park Society" editLions
        "2025-06-30" true).2 = .success ∧
      (saveChanges [lionsRecord, parkRecord] "Park Society" editLions
        "2025-06-30" true).1.length = [lionsRecord, parkRecord].length ∧
      (saveChanges [lionsRecord, parkRecord] "Park Society" editLions
        "2025-06-30" true).1[0]? = [lionsRecord, parkRecord][0]? ∧
      ((saveChanges [lionsRecord, parkRecord] "Park Society" editLions
        "2025-06-30" true).1[1]?).map Record.groupAssociation
        = ([lionsRecord, parkRecord][1]?).map Record.groupAssociation) :=
  ⟨by decide, by decide,
    saveChanges_frame_property [lionsRecord, parkRecord] "Park Society"
      editLions "2025-06-30" 1 0 (by decide) (by decide)⟩

/-- C3: the tab 1 update flow enforces the `[1900, currentYear + 1]` bound on
`Last_Fee_Paid_Year`: setting it to 1899 or to `currentYear + 2` is rejected
with the dataset untouched (no partial application), while 1900 succeeds when
the selected group exists and the backend write succeeds. -/
theorem updateRecord_feeYear_boundary (currentYear : Int) (df : List Record)
    (name : String) (e : EditedRow) (today : String) (writeOk : Bool) (i : Nat)
    (hfind : df.findIdx? (fun r => r.groupAssociation == name) = some i)
    (hcy : 1899 ≤ currentYear) :
    updateRecord currentYear df name { e with lastFeePaidYear := 1899 } today
      writeOk = (df, .validationFailed) ∧
    (updateRecord currentYear df name { e with lastFeePaidYear := 1900 } today
      true).2 = .success ∧
    updateRecord currentYear df name { e with lastFeePaidYear := currentYear + 2 }
      today writeOk = (df, .validationFailed) := by
  refine ⟨?_, ?_, ?_⟩
  · simp [updateRecord, feeYearWidgetOk]
  · have hb : feeYearWidgetOk currentYear 1900 = true := by
      simp only [feeYearWidgetOk, decide_eq_true_eq]
      omega
    obtain ⟨r, hget, heq⟩ :=
      saveChanges_found df name { e with lastFeePaidYear := 1900 } today true i hfind
    simp [updateRecord, hb, heq]
  · have hb : feeYearWidgetOk currentYear (currentYear + 2) = false := by
      simp only [feeYearWidgetOk, decide_eq_false_iff_not]
      omega
    simp [updateRecord, hb]

/-- Witness for C3 at a concrete dataset, with the current year 2025. -/
theorem updateRecord_feeYear_boundary_witness :
    ([lionsRecord].findIdx? (fun r => r.groupAssociation == "Lions Club")
      = some 0) ∧
    ((1899 : Int) ≤ 2025) ∧
    (updateRecord 2025 [lionsRecord] "Lions Club"
        { editLions with lastFeePaidYear := 1899 } "2025-06-30" true
        = ([lionsRecord], .validationFailed) ∧
      (updateRecord 2025 [lionsRecord] "Lions Club"
        { editLions with lastFeePaidYear := 1900 } "2025-06-30" true).2
        = .success ∧
      updateRecord 2025 [lionsRecord] "Lions Club"
        { editLions with lastFeePaidYear := 2025 + 2 } "2025-06-30" true
        = ([lionsRecord], .validationFailed)) :=
  ⟨by decide, by decide,
    updateRecord_feeYear_boundary 2025 [lionsRecord] "Lions Club" editLions
      "2025-06-30" true 0 (by decide) (by decide)⟩

/-- C10: the relational new-group form strips leading and trailing whitespace
from the submitted name before persisting, so the stored group name is the
trimmed input. -/
theorem relational_insert_trims_name (input : String) (db : Db)
    (h : input ≠ "") :
    new_group_form true input db true
      = (⟨db.rows ++ [pyStrip input]⟩, .inserted) := by
  simp [new_group_form, add_new_group, h]

/-- Witness for C10: submitting " Rotary " stores "Rotary". -/
theorem relational_insert_trims_name_witness :
    ((" Rotary " : String) ≠ "") ∧
    new_group_form true " Rotary " dbLions true
      = (⟨["Lions Club", "Rotary"]⟩, .inserted) := by
  refine ⟨by decide, ?_⟩
  have h := relational_insert_trims_name " Rotary " dbLions (by decide)
  rw [h]
  decide

/-!
Frame lemmas for the load pipeline.
-/

/-- Selecting columns yields exactly the requested column names in order. -/
theorem select_names (df : Frame) (cs : List String) : (df.select cs).names = cs := by
  unfold Frame.select Frame.names
  rw [List.map_map]
  exact List.map_id'' (fun x => rfl) cs

/-- A successfully cleaned frame carries exactly the declared columns. -/
theorem cleanFrame_names {df g : Frame} (h : cleanFrame df = .ok g) :
    g.names = COLUMNS := by
  unfold cleanFrame at h
  split at h
  · cases h
  · split at h
    · cases h
    · cases Except.ok.inj h
      exact select_names _ _

/-- C8: `load_data` returns a dataset whose column set is exactly the twelve
declared fields, in the declared order, on the success path and on the
failure path alike. -/
theorem load_shape_fixed (input : Except String Frame) :
    (load_data input).frame.names = COLUMNS := by
  cases input with
  | error e => rfl
  | ok raw =>
    have hsplit : load_data (.ok raw)
        = match cleanFrame raw with
          | .ok g => ⟨g, false⟩
          | .error _ => ⟨emptyFrame, true⟩ := rfl
    rw [hsplit]
    cases hc : cleanFrame raw with
    | error e => rfl
    | ok g =>
      show g.names = COLUMNS
      exact cleanFrame_names hc

/-- C4 counterexample: a raw dataset whose year column is missing is not
normalized by filling the column with zeros, and a raw dataset with a
non-numeric year value does not see that value become 0 — in both cases the
coercion raises before the missing-column fill runs, the row is dropped, and
`load_data` returns the empty dataset with an error reported. -/
theorem load_missing_or_invalid_year_cex :
    rawNoYear.nrows = 1 ∧
    (load_data (.ok rawNoYear)).frame.nrows = 0 ∧
    (load_data (.ok rawNoYear)).errorReported = true ∧
    rawBadYear.nrows = 1 ∧
    (load_data (.ok rawBadYear)).frame.nrows = 0 ∧
    (load_data (.ok rawBadYear)).errorReported = true := by
  refine ⟨rfl, by decide, by decide, rfl, by decide, by decide⟩

/-- An infallible cell transformation maps cleanly over a column. -/
theorem mapCellsE_total (g : Cell → Cell) (l : List Cell) :
    mapCellsE (fun x => .ok (g x)) l = .ok (l.map g) := by
  induction l with
  | nil => rfl
  | cons x xs ih => simp [mapCellsE, ih]

/-- When every cell of the column converts, the year coercion maps `yearFix`
over the column. -/
theorem mapCellsE_year (l : List Cell) (h : l.all yearCellOk = true) :
    mapCellsE fillnaAstypeInt l = .ok (l.map yearFix) := by
  induction l with
  | nil => rfl
  | cons x xs ih =>
    rw [List.all_cons, Bool.and_eq_true] at h
    have hx := h.1
    have hxs := ih h.2
    unfold yearCellOk at hx
    unfold mapCellsE
    cases hfx : fillnaAstypeInt x with
    | error e => rw [hfx] at hx; simp at hx
    | ok v =>
      rw [hxs]
      simp [yearFix, hfx]

/-- Rewriting the `c` column of an association list leaves the lookup of any
other key unchanged. -/
theorem lookup_map_setCol_ne (c x : String) (l2 : List Cell)
    (hx : (x == c) = false) (cols : List (String × List Cell)) :
    List.lookup x (cols.map (fun p => if p.1 == c then (c, l2) else p))
      = List.lookup x cols := by
  induction cols with
  | nil => rfl
  | cons p ps ih =>
    obtain ⟨k, v⟩ := p
    rw [List.map_cons]
    by_cases hkc : k = c
    · subst hkc
      rw [if_pos (by simp), List.lookup_cons, List.lookup_cons, hx]
      exact ih
    · rw [if_neg (by simpa using hkc), List.lookup_cons, List.lookup_cons]
      cases hxk : x == k
      · exact ih
      · rfl

/-- Rewriting the `c` column of an association list updates its lookup, when
the key is present at all. -/
theorem lookup_map_setCol_self (c : String) (l2 : List Cell)
    (cols : List (String × List Cell)) :
    List.lookup c (cols.map (fun p => if p.1 == c then (c, l2) else p))
      = (List.lookup c cols).map (fun _ => l2) := by
  induction cols with
  | nil => rfl
  | cons p ps ih =>
    obtain ⟨k, v⟩ := p
    rw [List.map_cons]
    by_cases hkc : k = c
    · subst hkc
      rw [if_pos (by simp), List.lookup_cons, List.lookup_cons]
      have hkk : (k == k) = true := by simp
      rw [hkk]
      rfl
    · rw [if_neg (by simpa using hkc), List.lookup_cons, List.lookup_cons]
      have hck : (c == k) = false := by simpa using Ne.symm hkc
      rw [hck]
      exact ih

/-- Rewriting column `c` in a frame leaves other columns unchanged. -/
theorem getCol_setColFrame_ne (df : Frame) (c x : String) (l2 : List Cell)
    (hx : x ≠ c) : (setColFrame df c l2).getCol x = df.getCol x := by
  have hxc : (x == c) = false := by simpa using hx
  exact lookup_map_setCol_ne c x l2 hxc df.cols

/-- Rewriting column `c` in a frame updates that column. -/
theorem getCol_setColFrame_self (df : Frame) (c : String) (l2 : List Cell) :
    (setColFrame df c l2).getCol c = (df.getCol c).map (fun _ => l2) :=
  lookup_map_setCol_self c l2 df.cols

/-- Rewriting an existing column with equally many cells keeps the row
count. -/
theorem nrows_setColFrame (df : Frame) (c : String) (l l2 : List Cell)
    (hc : df.getCol c = some l) (hlen : l2.length = l.length) :
    (setColFrame df c l2).nrows = df.nrows := by
  obtain ⟨cols⟩ := df
  cases cols with
  | nil => rfl
  | cons p ps =>
    obtain ⟨k, v⟩ := p
    by_cases hkc : k = c
    · subst hkc
      have hc2 : List.lookup k ((k, v) :: ps) = some l := hc
      rw [List.lookup_cons] at hc2
      have hkk : (k == k) = true := by simp
      rw [hkk] at hc2
      have hveq : v = l := by simpa using hc2
      have hfr : setColFrame ⟨(k, v) :: ps⟩ k l2
          = ⟨(k, l2) :: ps.map (fun p => if p.1 == k then (k, l2) else p)⟩ := by
        simp [setColFrame]
      rw [hfr]
      show l2.length = v.length
      rw [hveq, hlen]
    · have hfr : setColFrame ⟨(k, v) :: ps⟩ c l2
          = ⟨(k, v) :: ps.map (fun p => if p.1 == c then (c, l2) else p)⟩ := by
        simp [setColFrame, hkc]
      rw [hfr]
      rfl

/-- A successful column rewrite through `mapColE`. -/
theorem mapColE_ok {df : Frame} {c : String} {f : Cell → Except String Cell}
    {l l2 : List Cell} (hcol : df.getCol c = some l)
    (hmap : mapCellsE f l = .ok l2) :
    df.mapColE c f = .ok (setColFrame df c l2) := by
  unfold Frame.mapColE
  simp only [hcol, hmap]

/-- Looking a key up in a keyed map of itself. -/
theorem lookup_keyed_map (cs : List String) (g : String → List Cell) (c : String)
    (hc : c ∈ cs) :
    List.lookup c (cs.map (fun c2 => (c2, g c2))) = some (g c) := by
  induction cs with
  | nil => cases hc
  | cons a as ih =>
    by_cases hca : c = a
    · subst hca
      rw [List.map_cons, List.lookup_cons]
      have hcc : (c == c) = true := by simp
      rw [hcc]
    · have hmem : c ∈ as := by
        cases List.mem_cons.mp hc with
        | inl h => exact absurd h hca
        | inr h => exact h
      have hca2 : (c == a) = false := by simpa using hca
      rw [List.map_cons, List.lookup_cons, hca2]
      exact ih hmem

/-- Selecting columns exposes each requested column (missing ones as empty). -/
theorem select_getCol (df : Frame) (cs : List String) (c : String) (hc : c ∈ cs) :
    (df.select cs).getCol c = some ((df.getCol c).getD []) :=
  lookup_keyed_map cs _ c hc

/-- Selecting columns preserves the cells of each requested column. -/
theorem select_cell (df : Frame) (cs : List String) (c : String) (i : Nat)
    (hc : c ∈ cs) : (df.select cs).cell c i = df.cell c i := by
  unfold Frame.cell
  rw [select_getCol df cs c hc]
  rfl

/-- The row count of the selected full-column frame is the length of its
first declared column. -/
theorem select_nrows_columns (df : Frame) :
    (df.select COLUMNS).nrows
      = ((df.getCol "Group_Association").getD []).length := rfl

/-- Appending a fresh column of the current row count keeps the row count. -/
theorem nrows_append_col (df : Frame) (c : String) :
    Frame.nrows ⟨df.cols ++ [(c, List.replicate df.nrows (.str ""))]⟩
      = df.nrows := by
  obtain ⟨cols⟩ := df
  cases cols with
  | nil => simp [Frame.nrows]
  | cons p ps => rfl

/-- Looking up a column in a frame extended by one fresh column. -/
theorem getCol_append (df : Frame) (c x : String) (v : List Cell) :
    Frame.getCol ⟨df.cols ++ [(c, v)]⟩ x
      = (df.getCol x).or (if x = c then some v else none) := by
  have h2 : List.lookup x [(c, v)] = (if x = c then some v else none) := by
    by_cases hxc : x = c
    · subst hxc
      rw [List.lookup_cons]
      have hcc : (x == x) = true := by simp
      rw [hcc, if_pos rfl]
    · have hxc2 : (x == c) = false := by simpa using hxc
      rw [List.lookup_cons, hxc2, if_neg hxc]
      rfl
  show List.lookup x (df.cols ++ [(c, v)]) = _
  rw [List.lookup_append, h2]
  rfl

/-- Filling missing columns keeps the row count. -/
theorem fillMissingCols_nrows (cs : List String) (df : Frame) :
    (fillMissingCols df cs).nrows = df.nrows := by
  induction cs generalizing df with
  | nil => rfl
  | cons c cs ih =>
    show (if df.hasCol c then fillMissingCols df cs
          else fillMissingCols
            ⟨df.cols ++ [(c, List.replicate df.nrows (.str ""))]⟩ cs).nrows
        = df.nrows
    by_cases h : df.hasCol c
    · rw [if_pos h]
      exact ih df
    · rw [if_neg h, ih]
      exact nrows_append_col df c

/-- Column lookup after the missing-column fill: present columns are
unchanged, requested absent columns become empty-string columns of the
original row count. -/
theorem fillMissingCols_getCol (cs : List String) (df : Frame) (x : String) :
    (fillMissingCols df cs).getCol x
      = if (df.getCol x).isSome then df.getCol x
        else if x ∈ cs then some (List.replicate df.nrows (Cell.str ""))
        else none := by
  induction cs generalizing df with
  | nil =>
    show df.getCol x = _
    cases h : df.getCol x <;> simp [h]
  | cons c cs ih =>
    show (if df.hasCol c then fillMissingCols df cs
          else fillMissingCols
            ⟨df.cols ++ [(c, List.replicate df.nrows (.str ""))]⟩ cs).getCol x
        = _
    by_cases h : df.hasCol c
    · rw [if_pos h, ih]
      by_cases hxc : x = c
      · subst hxc
        unfold Frame.hasCol at h
        simp [h]
      · simp [List.mem_cons, hxc]
    · rw [if_neg h, ih, getCol_append, nrows_append_col]
      have hgc : df.getCol c = none := by
        unfold Frame.hasCol at h
        cases hh : df.getCol c with
        | none => rfl
        | some v => rw [hh] at h; simp at h
      by_cases hxc : x = c
      · subst hxc
        simp [hgc]
      · simp [hxc, List.mem_cons, Option.or_none]

/-- A successful association-list lookup locates a member. -/
theorem lookup_mem {cols : List (String × List Cell)} {x : String}
    {l : List Cell} (h : List.lookup x cols = some l) : (x, l) ∈ cols := by
  induction cols with
  | nil => cases h
  | cons p ps ih =>
    obtain ⟨k, v⟩ := p
    rw [List.lookup_cons] at h
    by_cases hxk : x = k
    · subst hxk
      have hxx : (x == x) = true := by simp
      rw [hxx] at h
      have hv : v = l := by simpa using h
      subst hv
      exact List.mem_cons_self _ _
    · have hxk2 : (x == k) = false := by simpa using hxk
      rw [hxk2] at h
      exact List.mem_cons_of_mem _ (ih h)

/-- In a well-formed frame, every column has the common row count. -/
theorem wf_col_length {df : Frame} {x : String} {l : List Cell}
    (hwf : df.wf = true) (h : df.getCol x = some l) : l.length = df.nrows := by
  have hm : (x, l) ∈ df.cols := lookup_mem h
  have hall := (List.all_eq_true.mp hwf) (x, l) hm
  simpa using hall

/-- C4 amended: for a raw dataset that has equal-length columns (as every
pandas read produces), contains the year and date columns, and whose year
cells each convert (blank or integer-valued), `load_data` succeeds and
normalizes each cell: a missing expected field reads as the empty string, the
year field is coerced to an integer with blank becoming 0, and the date field
becomes an ISO `YYYY-MM-DD` string or blank when unparseable.  When the year
or date column is missing, or a year cell is non-numeric, the load instead
fails to the empty dataset — the counterexample exhibits both. -/
theorem load_normalizes_when_coercible (df : Frame) (i : Nat) (c : String)
    (hwf : df.wf = true)
    (hy : df.hasCol "Last_Fee_Paid_Year" = true)
    (hd : df.hasCol "Web_Data_Updated" = true)
    (hyears : ((df.getCol "Last_Fee_Paid_Year").getD []).all yearCellOk = true)
    (hi : i < df.nrows)
    (hc : c ∈ COLUMNS) :
    (load_data (.ok df)).errorReported = false ∧
    (load_data (.ok df)).frame.nrows = df.nrows ∧
    (load_data (.ok df)).frame.cell c i = expectedCleanCell df c i := by
  obtain ⟨yl, hyl⟩ := Option.isSome_iff_exists.mp hy
  obtain ⟨dl, hdl⟩ := Option.isSome_iff_exists.mp hd
  have hyl2 : yl.all yearCellOk = true := by
    rw [hyl] at hyears
    simpa using hyears
  have hylen : yl.length = df.nrows := wf_col_length hwf hyl
  have hdlen : dl.length = df.nrows := wf_col_length hwf hdl
  have hynd : ("Web_Data_Updated" : String) ≠ "Last_Fee_Paid_Year" := by decide
  have h1 : df.mapColE "Last_Fee_Paid_Year" fillnaAstypeInt
      = .ok (setColFrame df "Last_Fee_Paid_Year" (yl.map yearFix)) :=
    mapColE_ok hyl (mapCellsE_year yl hyl2)
  set dfA := setColFrame df "Last_Fee_Paid_Year" (yl.map yearFix) with hdfA
  have hA_year : dfA.getCol "Last_Fee_Paid_Year" = some (yl.map yearFix) := by
    rw [hdfA, getCol_setColFrame_self, hyl]
    rfl
  have hA_ne : ∀ x, x ≠ "Last_Fee_Paid_Year" → dfA.getCol x = df.getCol x := by
    intro x hx
    rw [hdfA]
    exact getCol_setColFrame_ne df _ x _ hx
  have hA_nrows : dfA.nrows = df.nrows := by
    rw [hdfA]
    exact nrows_setColFrame df _ yl _ hyl (by simp)
  have hA_date : dfA.getCol "Web_Data_Updated" = some dl := by
    rw [hA_ne _ hynd]
    exact hdl
  have h2 : dfA.mapColE "Web_Data_Updated" (fun x => .ok (toDatetimeStrftime x))
      = .ok (setColFrame dfA "Web_Data_Updated" (dl.map toDatetimeStrftime)) :=
    mapColE_ok hA_date (mapCellsE_total _ _)
  set dfB := setColFrame dfA "Web_Data_Updated" (dl.map toDatetimeStrftime)
    with hdfB
  have hB_date : dfB.getCol "Web_Data_Updated"
      = some (dl.map toDatetimeStrftime) := by
    rw [hdfB, getCol_setColFrame_self, hA_date]
    rfl
  have hB_ne : ∀ x, x ≠ "Web_Data_Updated" → dfB.getCol x = dfA.getCol x := by
    intro x hx
    rw [hdfB]
    exact getCol_setColFrame_ne dfA _ x _ hx
  have hB_nrows : dfB.nrows = df.nrows := by
    rw [hdfB, nrows_setColFrame dfA _ dl _ hA_date (by simp)]
    exact hA_nrows
  have hload : load_data (.ok df)
      = ⟨(fillMissingCols dfB COLUMNS).select COLUMNS, false⟩ := by
    simp [load_data, cleanFrame, h1, h2]
  refine ⟨by rw [hload], ?_, ?_⟩
  · rw [hload]
    show ((fillMissingCols dfB COLUMNS).select COLUMNS).nrows = df.nrows
    rw [select_nrows_columns, fillMissingCols_getCol]
    have hBga : dfB.getCol "Group_Association"
        = df.getCol "Group_Association" := by
      rw [hB_ne _ (by decide), hA_ne _ (by decide)]
    rw [hBga, hB_nrows]
    cases hga : df.getCol "Group_Association" with
    | none =>
      have hmem : ("Group_Association" : String) ∈ COLUMNS := by decide
      simp [hmem]
    | some gl =>
      simp
      exact wf_col_length hwf hga
  · rw [hload]
    show ((fillMissingCols dfB COLUMNS).select COLUMNS).cell c i
        = expectedCleanCell df c i
    rw [select_cell _ _ _ _ hc]
    unfold Frame.cell
    rw [fillMissingCols_getCol]
    by_cases hcc : df.hasCol c = true
    · by_cases hcy : c = "Last_Fee_Paid_Year"
      · subst hcy
        rw [hB_ne _ (by decide), hA_year]
        have hilt : i < yl.length := by rw [hylen]; exact hi
        simp [expectedCleanCell, hcc, Frame.cell, hyl,
          List.getElem?_eq_getElem hilt]
      · by_cases hcd : c = "Web_Data_Updated"
        · subst hcd
          rw [hB_date]
          have hilt : i < dl.length := by rw [hdlen]; exact hi
          simp [expectedCleanCell, hcc, Frame.cell, hdl, hcy,
            List.getElem?_eq_getElem hilt]
        · obtain ⟨cl, hcl⟩ := Option.isSome_iff_exists.mp hcc
          rw [hB_ne _ hcd, hA_ne _ hcy, hcl]
          simp [expectedCleanCell, hcc, Frame.cell, hcl, hcy, hcd]
    · have hcc2 : df.hasCol c = false := by simpa using hcc
      have hgc : df.getCol c = none := by
        unfold Frame.hasCol at hcc2
        cases hh : df.getCol c with
        | none => rfl
        | some v => rw [hh] at hcc2; simp at hcc2
      have hcy : c ≠ "Last_Fee_Paid_Year" := by
        intro hcontra
        rw [hcontra, hy] at hcc2
        cases hcc2
      have hcd : c ≠ "Web_Data_Updated" := by
        intro hcontra
        rw [hcontra, hd] at hcc2
        cases hcc2
      rw [hB_ne _ hcd, hA_ne _ hcy, hgc, hB_nrows]
      simp [hc, expectedCleanCell, hcc2, hi]

/-- Witness for the amended C4: a one-row raw sheet with a blank year, an
unparseable date, and most expected columns missing is normalized in place,
with a missing column ("President_Name") reading as the empty string. -/
theorem load_normalizes_when_coercible_witness :
    (rawGood.wf = true) ∧
    (rawGood.hasCol "Last_Fee_Paid_Year" = true) ∧
    (rawGood.hasCol "Web_Data_Updated" = true) ∧
    (((rawGood.getCol "Last_Fee_Paid_Year").getD []).all yearCellOk = true) ∧
    (0 < rawGood.nrows) ∧
    (("President_Name" : String) ∈ COLUMNS) ∧
    ((load_data (.ok rawGood)).errorReported = false ∧
      (load_data (.ok rawGood)).frame.nrows = rawGood.nrows ∧
      (load_data (.ok rawGood)).frame.cell "President_Name" 0
        = expectedCleanCell rawGood "President_Name" 0) :=
  ⟨by decide, by decide, by decide, by decide, by decide, by decide,
    load_normalizes_when_coercible rawGood 0 "President_Name" (by decide)
      (by decide) (by decide) (by decide) (by decide) (by decide)⟩

end Orgaco
